import Mathlib

/-!
Shallow embedding of the CASMpython binding layer:
`src/casm/casm/project/api.py` (the ctypes FFI wrapper over libcasm /
libccasm) and `src/casm/casm/scripts/casm_convert.py` (the ASE structure
converter).  Pure Python functions become Lean functions; the process-wide
singleton state, the trace of native calls and the printed diagnostics are
passed explicitly; Python exceptions become `Except` values.  Behavior of
the native libraries themselves (libcasm / libccasm) is not part of this
repository's sources; where a definition models it, its doc comment says
`Modelled from the spec:` and follows the spec's words.
-/

set_option autoImplicit false

namespace CasmPython

/-- Python exceptions that the embedded code can raise.  The constructors
`executableNotFoundError` and `libraryNotFoundError` are the error types the
spec posits for the library locator; they are included so that statements
about them can be made — nothing in `api.py` constructs them. -/
inductive PyExc where
  | errorReturnCode (cmd : String)
  | indexError
  | typeError
  | nameError (name : String)
  | keyError (key : String)
  | attributeError (msg : String)
  | exception (msg : String)
  | executableNotFoundError (msg : String)
  | libraryNotFoundError (exePath : String) (listing : String)
deriving DecidableEq

deriving instance DecidableEq for Except

/-- Whether the character list `pat` occurs as a contiguous run at the start
of `l` (helper for substring search, Python's `in` on strings). -/
def listStartsWith : List Char → List Char → Bool
  | _, [] => true
  | [], _ :: _ => false
  | a :: as, b :: bs => a = b && listStartsWith as bs

/-- Whether `pat` occurs contiguously anywhere in `hay`: Python's
`pat in hay` for strings, and grep's fixed-string line match. -/
def listContainsSub (hay pat : List Char) : Bool :=
  (List.range (hay.length + 1)).any (fun k => listStartsWith (hay.drop k) pat)

/-- Tokenizer behind `pySplit`: walk the characters, `acc` holding the
current token reversed. -/
def splitWsAux : List Char → List Char → List String
  | [], acc => if acc = [] then [] else [String.mk acc.reverse]
  | c :: rest, acc =>
    if c.isWhitespace then
      if acc = [] then splitWsAux rest []
      else String.mk acc.reverse :: splitWsAux rest []
    else splitWsAux rest (c :: acc)

/-- Python `str.split()` with no argument: split on runs of whitespace,
discarding empty fields. -/
def pySplit (s : String) : List String :=
  splitWsAux s.data []

/-- Split a character stream into lines at `\n` (the line structure grep
works on; the piece after the last newline is included). -/
def splitLinesAux : List Char → List Char → List String
  | [], acc => [String.mk acc.reverse]
  | c :: rest, acc =>
    if c = '\n' then String.mk acc.reverse :: splitLinesAux rest []
    else splitLinesAux rest (c :: acc)

/-- Join strings with newlines (grep's stdout before its trailing
newline). -/
def joinLines : List String → String
  | [] => ""
  | [x] => x
  | x :: y :: rest => x ++ "\n" ++ joinLines (y :: rest)

/-- Recursion behind `pyReplaceStr`, with fuel bounding the scan length:
at each position a match of `pat` is consumed and replaced by `rep`,
otherwise one character is kept (Python `str.replace`'s left-to-right,
non-overlapping scan; callers only pass non-empty patterns). -/
def replaceFuel : Nat → List Char → List Char → List Char → List Char
  | _, [], _, _ => []
  | 0, hay, _, _ => hay
  | Nat.succ f, c :: rest, pat, rep =>
    if pat.length ≠ 0 ∧ listStartsWith (c :: rest) pat = true then
      rep ++ replaceFuel f ((c :: rest).drop pat.length) pat rep
    else c :: replaceFuel f rest pat rep

/-- Python `s.replace(pat, rep)`: every non-overlapping occurrence of
`pat` in `s`, scanned left to right, replaced by `rep`. -/
def pyReplaceStr (s pat rep : String) : String :=
  String.mk (replaceFuel s.data.length s.data pat.data rep.data)

/-- Index of the last occurrence of `c` in `cs`, offset by `i` (helper for
`posixpath.dirname`'s `rfind`). -/
def lastIndexOfAux : List Char → Char → Nat → Option Nat
  | [], _, _ => none
  | x :: xs, c, i =>
    match lastIndexOfAux xs c (i + 1) with
    | some j => some j
    | none => if x = c then some i else none

/-- Python `os.path.dirname` (posixpath): everything up to the last `/`,
with trailing slashes stripped unless the head is all slashes. -/
def pyDirname (p : String) : String :=
  match lastIndexOfAux p.data '/' 0 with
  | none => ""
  | some j =>
    let head := p.data.take (j + 1)
    if head.all (fun c => c = '/') then String.mk head
    else String.mk ((head.reverse.dropWhile (fun c => c = '/')).reverse)

/-- `sh.grep(out, pat)`: the lines of `out` that contain `pat`, joined with
newlines (grep's stdout ends in a newline).  `sh` raises `ErrorReturnCode`
when grep matches nothing and exits 1. -/
def pyGrep (out pat : String) : Except PyExc String :=
  let ms := (splitLinesAux out.data []).filter (fun l => listContainsSub l.data pat.data)
  match ms with
  | [] => Except.error (PyExc.errorReturnCode "grep")
  | _ :: _ => Except.ok (joinLines ms ++ "\n")

/-- Python list indexing `l[i]`: `IndexError` when out of range. -/
def pyIndex {α : Type} (l : List α) (i : Nat) : Except PyExc α :=
  match l.get? i with
  | some x => Except.ok x
  | none => Except.error PyExc.indexError

/-- Python `print x` of an `Option String` (`None` prints as `None`). -/
def pyShowOptStr : Option String → String
  | none => "None"
  | some s => s

/-- The process environment `API.__API.__init__` runs against: the platform
string, the result of `distutils.spawn.find_executable('casm')`, the stdout
of `otool -L` / `ldd` on that executable (as an `Except`, since the `sh`
invocation itself can raise), and the outcome of `ctypes.CDLL` per path. -/
structure ApiEnv where
  platform : String
  findExecutable : Option String
  otoolRes : Except PyExc String
  lddRes : Except PyExc String
  cdllRes : String → Except PyExc Nat

/-- Sequencing of Python statements that can raise: the exception
propagates, otherwise the rest runs on the value. -/
def exbind {α β : Type} (x : Except PyExc α) (f : α → Except PyExc β) :
    Except PyExc β :=
  match x with
  | Except.error e => Except.error e
  | Except.ok a => f a

/-- Sequencing on an `Option`: `none` raises `e0`, otherwise the rest runs
on the value. -/
def optbind {α β : Type} (x : Option α) (e0 : PyExc) (f : α → Except PyExc β) :
    Except PyExc β :=
  match x with
  | none => Except.error e0
  | some a => f a

/-- Source `api.py` lines 38-43: locate libcasm.  On darwin, grep the
`otool -L` listing for `libcasm`, take the first whitespace token and
substitute `@loader_path` with the executable's directory; otherwise grep
the `ldd` listing and take the third whitespace token (the resolved path).
`os.path.dirname(None)` raises `TypeError`. -/
def locate_libcasm (env : ApiEnv) : Except PyExc String :=
  if env.platform = "darwin" then
    exbind env.otoolRes fun out =>
    exbind (pyGrep out "libcasm") fun g =>
    exbind (pyIndex (pySplit g) 0) fun tok =>
    optbind env.findExecutable PyExc.typeError fun cp =>
    Except.ok (pyReplaceStr tok "@loader_path" (pyDirname cp))
  else
    exbind env.lddRes fun out =>
    exbind (pyGrep out "libcasm") fun g =>
    pyIndex (pySplit g) 2

/-- Source `api.py` line 44: the binding library's path is the engine
library's path with every occurrence of `libcasm` replaced by `libccasm`. -/
def locate_libs (env : ApiEnv) : Except PyExc (String × String) :=
  exbind (locate_libcasm env) fun p =>
  Except.ok (p, pyReplaceStr p "libcasm" "libccasm")

/-- Source `api.py` lines 37-47, the `try` block: locate both libraries and
load them with `ctypes.CDLL` (engine library first). -/
def tryLoadLibs (env : ApiEnv) : Except PyExc (Nat × Nat) :=
  exbind (locate_libs env) fun pq =>
  exbind (env.cdllRes pq.1) fun h1 =>
  exbind (env.cdllRes pq.2) fun h2 =>
  Except.ok (h1, h2)

/-- Source `api.py` lines 37-58: `API.__API.__init__` with its
`try`/`except` block.  On failure the `except` branch prints an error
banner, re-runs `find_executable` and the platform's dependency listing,
prints them, and re-raises the original exception `e`; when the re-run
listing itself raises, that new exception propagates instead.  The result
pairs the outcome with the list of printed lines. -/
def API_API_init (env : ApiEnv) : Except PyExc (Nat × Nat) × List String :=
  match tryLoadLibs env with
  | Except.ok s => (Except.ok s, [])
  | Except.error e =>
    let pr := ["Error loading casm libraries",
               "Find 'casm': " ++ pyShowOptStr env.findExecutable,
               "Find 'libcasm':"]
    match (if env.platform = "darwin" then env.otoolRes else env.lddRes) with
    | Except.ok out => (Except.error e, pr ++ [out])
    | Except.error e2 => (Except.error e2, pr)

/-- The hidden `API.__API` session object: handles to the two loaded
libraries (`lib_casm`, `lib_ccasm`), source `api.py` lines 20-33. -/
structure Session where
  lib_casm : Nat
  lib_ccasm : Nat
deriving DecidableEq

/-- Process-wide state for the singleton pattern: the class member
`API.__api` (source `api.py` line 92) and a count of `ctypes.CDLL` loads
performed so far (each `__API.__init__` performs two, lines 46-47). -/
structure ProcState where
  api : Option Session
  loadCount : Nat
deriving DecidableEq

/-- A process that has not yet constructed any `API` instance. -/
def freshProcess : ProcState := { api := none, loadCount := 0 }

/-- Constructing the hidden `__API` object: loads the two libraries (two
`CDLL` calls), returning the session and the updated load count. -/
def API_API_construct (st : ProcState) : Session × ProcState :=
  ({ lib_casm := st.loadCount, lib_ccasm := st.loadCount + 1 },
   { st with loadCount := st.loadCount + 2 })

/-- Source `api.py` lines 94-103, `API.__init__`: construct the hidden
session only when `API.__api is None`, otherwise reuse it unchanged. -/
def API_init (st : ProcState) : ProcState :=
  match st.api with
  | none =>
    let (s, st2) := API_API_construct st
    { st2 with api := some s }
  | some _ => st

/-- Modelled from the spec: the capturing sink backing a
`CASM::OStringStreamLog` lives in the native library (not under `src/`);
its state is the sequence of bytes written to it since creation
("Must reflect exactly the bytes written to the sink since its creation"). -/
abbrev SinkContent : Type := List Nat

/-- Modelled from the spec: `casm_ostringstream_new` (native) creates a
capturing sink that nothing has been written to yet. -/
def casm_ostringstream_new : SinkContent := []

/-- Modelled from the spec: an engine output operation appends the written
bytes to the capturing sink's content. -/
def sinkWrite (content : SinkContent) (bs : List Nat) : SinkContent :=
  content ++ bs

/-- The sink contents after a sequence of writes into a fresh capturing
sink. -/
def sinkContents (writes : List (List Nat)) : SinkContent :=
  writes.foldl sinkWrite casm_ostringstream_new

/-- Modelled from the spec: `casm_ostringstream_size` (native) queries the
sink's byte length ("querying its byte length"). -/
def casm_ostringstream_size (content : SinkContent) : Nat :=
  content.length

/-- `ctypes.create_string_buffer(n)` with an integer argument: a buffer of
exactly `n` zero bytes. -/
def create_string_buffer (n : Nat) : List Nat :=
  List.replicate n 0

/-- Modelled from the spec: `casm_ostringstream_strcpy` (native) copies the
sink's bytes into the caller-provided buffer ("copying that many bytes into
caller-provided storage"); positions past the content keep their value. -/
def casm_ostringstream_strcpy (content : SinkContent) (buf : List Nat) : List Nat :=
  content ++ buf.drop content.length

/-- `ctypes` `.value` of a `c_char` array: the bytes up to the first NUL
byte, or the whole buffer when it holds none. -/
def c_char_array_value (buf : List Nat) : List Nat :=
  buf.takeWhile (fun b => b ≠ 0)

/-- Source `api.py` lines 141-159, `API.ostringstream_to_str`: allocate a
`create_string_buffer` of the queried size, `strcpy` into it, and return
the buffer's `.value`. -/
def ostringstream_to_str (content : SinkContent) : List Nat :=
  c_char_array_value
    (casm_ostringstream_strcpy content
      (create_string_buffer (casm_ostringstream_size content)))

/-- A call into the native library made by the wrapper's release methods. -/
inductive NativeCall where
  | ostringstreamDelete (ptr : Nat)
  | primclexDelete (ptr : Nat)
deriving DecidableEq

/-- Source `api.py` lines 161-172, `API.ostringstream_delete`: one
unconditional native `casm_ostringstream_delete(ptr)` call — the wrapper
keeps no record of released handles and performs no check. -/
def API_ostringstream_delete (ptr : Nat) (trace : List NativeCall) : List NativeCall :=
  trace ++ [NativeCall.ostringstreamDelete ptr]

/-- Source `api.py` lines 245-256, `API.primclex_delete`: one unconditional
native `casm_primclex_delete(ptr)` call, with no record or check. -/
def API_primclex_delete (ptr : Nat) (trace : List NativeCall) : List NativeCall :=
  trace ++ [NativeCall.primclexDelete ptr]

/-- Modelled from the spec: the status code enumeration returned by the
native `casm_capi` ("0 success; 1 invalid argument; 2 unknown/misc error;
3 no project found; 4 input file invalid; 5 input file missing; 6 file
would be overwritten; 7 missing prerequisite step; 8 path collides with
another project"), matching the docstring of `API.__call__`
(`api.py` lines 303-330). -/
inductive CommandOutcome where
  | success
  | errInvalidArg
  | errUnknown
  | errNoProj
  | errInvalidInputFile
  | errMissingInputFile
  | errExistingFile
  | errMissingDepends
  | errOtherProj
deriving DecidableEq

/-- The integer value of each `CommandOutcome` (the `c_int` the native
`casm_capi` returns). -/
def statusCode : CommandOutcome → Nat
  | CommandOutcome.success => 0
  | CommandOutcome.errInvalidArg => 1
  | CommandOutcome.errUnknown => 2
  | CommandOutcome.errNoProj => 3
  | CommandOutcome.errInvalidInputFile => 4
  | CommandOutcome.errMissingInputFile => 5
  | CommandOutcome.errExistingFile => 6
  | CommandOutcome.errMissingDepends => 7
  | CommandOutcome.errOtherProj => 8

/-- Source `api.py` lines 259-333, `API.__call__`: forward the arguments to
the native `casm_capi` and return its integer status code unchanged.  The
native entry point itself is not under `src/`, so it is a parameter
returning the spec's outcome enumeration. -/
def API_call (casm_capi : String → Option Nat → String → Nat → Nat → Nat → CommandOutcome)
    (args : String) (primclex : Option Nat) (root : String)
    (log debug_log err_log : Nat) : Nat :=
  statusCode (casm_capi args primclex root log debug_log err_log)

/-- The in-memory state of a `CASM::PrimClex` project context, by the
spec's subsystems: settings, composition axes, chemical reference,
enumerated configurations, and derived cluster-expansion artifacts. -/
structure PrimClexData where
  settings : Nat
  composition : Nat
  chemRef : Nat
  configs : Nat
  clex : Option Nat
deriving DecidableEq

/-- The on-disk state of the project's settings files, one value per
reloadable subsystem. -/
structure ProjectDisk where
  settings : Nat
  composition : Nat
  chemRef : Nat
  configs : Nat
deriving DecidableEq

/-- Modelled from the spec: the native `casm_primclex_refresh` evaluates
its five boolean flags independently — each true flag reloads its subsystem
from the on-disk settings files, `clear_clex` clears the stored derived
artifacts, and the context is mutated in place (never reallocated). -/
def casm_primclex_refresh (disk : ProjectDisk) (s : PrimClexData)
    (read_settings read_composition read_chem_ref read_configs clear_clex : Bool) :
    PrimClexData :=
  { settings := if read_settings then disk.settings else s.settings,
    composition := if read_composition then disk.composition else s.composition,
    chemRef := if read_chem_ref then disk.chemRef else s.chemRef,
    configs := if read_configs then disk.configs else s.configs,
    clex := if clear_clex then none else s.clex }

/-- Source `api.py` lines 211-243, `API.primclex_refresh`: forward the
pointer and the five flags to the native `casm_primclex_refresh`. -/
def API_primclex_refresh (disk : ProjectDisk) (s : PrimClexData)
    (read_settings read_composition read_chem_ref read_configs clear_clex : Bool) :
    PrimClexData :=
  casm_primclex_refresh disk s read_settings read_composition read_chem_ref
    read_configs clear_clex

/-- A value stored in a CASM structure dict (`casm_convert.py`): a string,
a numeric matrix, or a list of strings. -/
inductive CVal where
  | s (x : String)
  | mat (x : List (List Rat))
  | strs (x : List String)
deriving DecidableEq

/-- A CASM structure: a Python dict as an insertion-ordered association
list with unique keys. -/
abbrev CasmStructure : Type := List (String × CVal)

/-- Python `d[k]` on a dict: the value, or `KeyError` when absent. -/
def pyDictGet (d : CasmStructure) (k : String) : Except PyExc CVal :=
  match d.find? (fun kv => kv.1 = k) with
  | some kv => Except.ok kv.2
  | none => Except.error (PyExc.keyError k)

/-- Python `k in d` on a dict. -/
def pyDictContains (d : CasmStructure) (k : String) : Bool :=
  (d.find? (fun kv => kv.1 = k)).isSome

/-- Python `m.get(x, x)` on a string-to-string dict. -/
def pyGetD (m : List (String × String)) (x : String) : String :=
  match m.find? (fun kv => kv.1 = x) with
  | some kv => kv.2
  | none => x

/-- An `ase.Atoms` instance as the converter uses it: cell, chemical
symbols, scaled (fractional) positions, optional initial magnetic moments.
(`ase` is an external package; only the fields the converter touches are
kept.) -/
structure AseAtoms where
  cell : List (List Rat)
  symbols : List String
  scaledPositions : List (List Rat)
  magmoms : Option (List (List Rat))
deriving DecidableEq

/-- The converted `ASEIntermediary` object: the forward map and the
inverse map its `__init__` builds. -/
structure ASEIntermediary where
  casm_to_ase_chemical_symbols : List (String × String)
  ase_to_casm_chemical_symbols : List (String × String)
deriving DecidableEq

/-- Name resolution inside the dict comprehension of
`ASEIntermediary.__init__` (`casm_convert.py` line 63): the comprehension
scope binds only `key`; `value` is bound neither there, nor in `__init__`,
nor among the module's globals, nor in builtins. -/
def compScopeLookup (key : String) (name : String) : Option String :=
  if name = "key" then some key else none

/-- One iteration of the comprehension
`{casm_to_ase_chemical_symbols[value]: key for key in ...}`: evaluate the
key expression `casm_to_ase_chemical_symbols[value]`, which first resolves
the name `value`. -/
def compStep (m : List (String × String)) (acc : List (String × String))
    (key : String) : Except PyExc (List (String × String)) :=
  match compScopeLookup key "value" with
  | none => Except.error (PyExc.nameError "value")
  | some v =>
    match m.find? (fun kv => kv.1 = v) with
    | some kv => Except.ok (acc ++ [(kv.2, key)])
    | none => Except.error (PyExc.keyError v)

/-- Source `casm_convert.py` lines 61-63, `ASEIntermediary.__init__`: store
the forward map and build the inverse map by the dict comprehension (its
body runs once per key of the dict). -/
def ASEIntermediary_init (m : List (String × String)) : Except PyExc ASEIntermediary :=
  match (m.map Prod.fst).foldlM (compStep m) [] with
  | Except.error e => Except.error e
  | Except.ok inv =>
    Except.ok { casm_to_ase_chemical_symbols := m,
                ase_to_casm_chemical_symbols := inv }

/-- Extract a matrix value (where Python would go on to use the value as a
nested list of numbers). -/
def asMat : CVal → Except PyExc (List (List Rat))
  | CVal.mat x => Except.ok x
  | _ => Except.error PyExc.typeError

/-- Extract a string value. -/
def asStr : CVal → Except PyExc String
  | CVal.s x => Except.ok x
  | _ => Except.error PyExc.typeError

/-- Extract a list-of-strings value. -/
def asStrs : CVal → Except PyExc (List String)
  | CVal.strs x => Except.ok x
  | _ => Except.error PyExc.typeError

/-- Source `casm_convert.py` lines 65-146, `ASEIntermediary.make_structure`:
convert a CASM structure dict to an `ase.Atoms` instance.  External
behavior is passed in: `validSymbol` is whether `ase.Atoms` accepts a
chemical symbol (else it raises `KeyError`, turned into the wrapper's
`Exception`), `cartToFrac` is ase's Cartesian-to-fractional conversion in
`set_positions`, and `getProp` is `get_casm_structure_property` from
`casm.project.structure` (a module not under `src/`).  A nonempty
`selectivedynamics` property reaches `sflags.any()` on a Python list,
which raises `AttributeError`. -/
def make_structure (casm_to_ase : List (String × String))
    (validSymbol : String → Bool)
    (cartToFrac : List (List Rat) → List (List Rat) → List (List Rat))
    (getProp : CasmStructure → String → String → Option CVal)
    (st : CasmStructure) : Except PyExc AseAtoms :=
  match
    (if pyDictContains st "lattice_vectors" then pyDictGet st "lattice_vectors"
     else if pyDictContains st "lattice" then pyDictGet st "lattice"
     else Except.error (PyExc.exception
       "Error: no `lattice_vectors` or `lattice` found in CASM structure")) with
  | Except.error e => Except.error e
  | Except.ok cellVal =>
    match asMat cellVal with
    | Except.error e => Except.error e
    | Except.ok cell =>
      match pyDictGet st "atom_type" with
      | Except.error e => Except.error e
      | Except.ok typesVal =>
        match asStrs typesVal with
        | Except.error e => Except.error e
        | Except.ok types =>
          let symbols := types.map (fun x => pyGetD casm_to_ase x)
          if ¬ symbols.all validSymbol then
            Except.error (PyExc.exception
              "Error setting ase chemical symbols. Any CASM atom_type that is not an chemical symbol understood by ase must have a conversion listed in a dict given by --chemical_symbols")
          else
            match pyDictGet st "coord_mode" with
            | Except.error e => Except.error e
            | Except.ok cmVal =>
              match asStr cmVal with
              | Except.error e => Except.error e
              | Except.ok cm =>
                let frac := cm.toLower = "direct" ∨ cm.toLower = "fractional"
                match pyDictGet st "atom_coords" with
                | Except.error e => Except.error e
                | Except.ok coordsVal =>
                  match asMat coordsVal with
                  | Except.error e => Except.error e
                  | Except.ok coords =>
                    let atoms1 : AseAtoms :=
                      { cell := cell, symbols := symbols,
                        scaledPositions :=
                          if frac then coords else cartToFrac cell coords,
                        magmoms := none }
                    match
                      (match getProp st "atom" "magspin" with
                       | none => Except.ok atoms1
                       | some v =>
                         match asMat v with
                         | Except.error e => Except.error e
                         | Except.ok msp =>
                           Except.ok { atoms1 with magmoms := some msp }) with
                    | Except.error e => Except.error e
                    | Except.ok atoms2 =>
                      match getProp st "atom" "selectivedynamics" with
                      | none => Except.ok atoms2
                      | some v =>
                        match asMat v with
                        | Except.error e => Except.error e
                        | Except.ok flags =>
                          match flags with
                          | [] => Except.ok atoms2
                          | _ :: _ =>
                            Except.error (PyExc.attributeError
                              "list object has no attribute any")

/-- Source `casm_convert.py` lines 148-179,
`ASEIntermediary.make_casm_structure`: build the CASM structure dict with
keys `lattice_vectors`, `coord_mode`, `atom_coords` and `atom_types` (in
that insertion order), mapping each ase chemical symbol through
`ase_to_casm_chemical_symbols.get(x, x)`. -/
def make_casm_structure (ase_to_casm : List (String × String)) (a : AseAtoms) :
    CasmStructure :=
  [("lattice_vectors", CVal.mat a.cell),
   ("coord_mode", CVal.s "Fractional"),
   ("atom_coords", CVal.mat a.scaledPositions),
   ("atom_types", CVal.strs (a.symbols.map (fun x => pyGetD ase_to_casm x)))]

/-- A dependency listing with no `libcasm` entry (a concrete `ldd` stdout). -/
def lddNoMatch : String := "\tlinux-vdso.so.1 (0x00007fff)"

/-- A concrete environment where the executable is found but its dependency
listing has no `libcasm` entry. -/
def env0 : ApiEnv :=
  { platform := "linux", findExecutable := some "/usr/bin/casm",
    otoolRes := Except.ok "", lddRes := Except.ok lddNoMatch,
    cdllRes := fun _ => Except.ok 0 }

/-- A concrete environment where `ldd` resolves `libcasm`. -/
def env1 : ApiEnv :=
  { platform := "linux", findExecutable := some "/usr/bin/casm",
    otoolRes := Except.ok "",
    lddRes := Except.ok "\tlibcasm.so => /usr/lib/libcasm.so (0x00007f80)",
    cdllRes := fun _ => Except.ok 0 }

end CasmPython

namespace CasmPython

lemma API_init_of_some (st : ProcState) (s : Session) (h : st.api = some s) :
    API_init st = st := by
  unfold API_init
  rw [h]

lemma foldl_sinkWrite (ws : List (List Nat)) (acc : List Nat) :
    ws.foldl sinkWrite acc = acc ++ ws.flatten := by
  induction ws generalizing acc with
  | nil => simp
  | cons w ws ih => simp [sinkWrite, ih]

lemma strcpy_exact (content : List Nat) :
    casm_ostringstream_strcpy content (create_string_buffer content.length) = content := by
  have h : (List.replicate content.length (0 : Nat)).drop content.length = [] :=
    List.drop_eq_nil_of_le (by simp)
  simp [casm_ostringstream_strcpy, create_string_buffer, h]

lemma takeWhile_ne_zero (l : List Nat) (h : ∀ b ∈ l, b ≠ 0) :
    l.takeWhile (fun b => b ≠ 0) = l := by
  induction l with
  | nil => rfl
  | cons a t ih =>
    rw [List.takeWhile_cons]
    have ha : a ≠ 0 := h a (List.mem_cons_self a t)
    have ht := ih fun b hb => h b (List.mem_cons_of_mem a hb)
    simp [ha, ht]
    exact fun x hx => h x (List.mem_cons_of_mem a hx)

lemma pyIndex_ok {α : Type} (l : List α) (i : Nat) (x : α) :
    pyIndex l i = Except.ok x ↔ l.get? i = some x := by
  unfold pyIndex
  cases h : l.get? i <;> simp

lemma exbind_ok {α β : Type} {x : Except PyExc α} {f : α → Except PyExc β}
    {b : β} (h : exbind x f = Except.ok b) :
    ∃ a, x = Except.ok a ∧ f a = Except.ok b := by
  cases x with
  | error e => exact absurd h (by simp [exbind])
  | ok a => exact ⟨a, rfl, h⟩

lemma optbind_ok {α β : Type} {x : Option α} {e0 : PyExc}
    {f : α → Except PyExc β} {b : β} (h : optbind x e0 f = Except.ok b) :
    ∃ a, x = some a ∧ f a = Except.ok b := by
  cases x with
  | none => exact absurd h (by simp [optbind])
  | some a => exact ⟨a, rfl, h⟩

/-- Claim C1: the first `API` construction in a process creates the single
hidden session (loading both libraries, two `CDLL` loads in total), and
any sequence of `n ≥ 1` constructions leaves the process in exactly the
state after the first — the same cached session, with no further load. -/
theorem c1_session_singleton (n : Nat) (h : 1 ≤ n) :
    API_init^[n] freshProcess = API_init freshProcess ∧
    (API_init^[n] freshProcess).loadCount = 2 ∧
    (API_init^[n] freshProcess).api = some { lib_casm := 0, lib_ccasm := 1 } := by
  obtain ⟨k, rfl⟩ : ∃ k, n = k + 1 := ⟨n - 1, (Nat.succ_pred_eq_of_pos h).symm⟩
  have key : API_init^[k + 1] freshProcess = API_init freshProcess := by
    induction k with
    | zero => rfl
    | succ m ih =>
      rw [Function.iterate_succ_apply', ih (by omega)]
      decide
  exact ⟨key, by rw [key]; decide, by rw [key]; decide⟩

/-- Witness for C1 at `n = 3`. -/
theorem c1_session_singleton_witness :
    API_init^[3] freshProcess = API_init freshProcess ∧
    (API_init^[3] freshProcess).loadCount = 2 ∧
    (API_init^[3] freshProcess).api = some { lib_casm := 0, lib_ccasm := 1 } :=
  c1_session_singleton 3 (by decide)

/-- Claim C2 counterexample: a write containing a NUL byte.  The sink holds
the three bytes `[104, 0, 105]`, but `ostringstream_to_str` returns only
`[104]` — the `.value` readout of the `ctypes` buffer stops at the first
NUL byte, so the readout is not byte-for-byte. -/
theorem c2_roundtrip_counterexample :
    sinkContents [[104, 0, 105]] = [104, 0, 105] ∧
    ostringstream_to_str (sinkContents [[104, 0, 105]]) = [104] ∧
    ostringstream_to_str (sinkContents [[104, 0, 105]]) ≠ sinkContents [[104, 0, 105]] := by
  decide

/-- Claim C2 (amended): for every sequence of writes none of whose bytes is
NUL, the readout of `ostringstream_to_str` (query size, allocate that many
bytes, copy, take the buffer's `.value`) returns exactly the N written
bytes, byte-for-byte. -/
theorem c2_roundtrip (writes : List (List Nat))
    (h : ∀ b ∈ writes.flatten, b ≠ 0) :
    casm_ostringstream_size (sinkContents writes) = writes.flatten.length ∧
    ostringstream_to_str (sinkContents writes) = writes.flatten := by
  have hc : sinkContents writes = writes.flatten := by
    simp [sinkContents, foldl_sinkWrite, casm_ostringstream_new]
  refine ⟨by rw [hc]; rfl, ?_⟩
  rw [hc]
  unfold ostringstream_to_str c_char_array_value casm_ostringstream_size
  rw [strcpy_exact]
  exact takeWhile_ne_zero _ h

/-- Witness for C2 (amended) at the writes `[[104], [105, 106]]`. -/
theorem c2_roundtrip_witness :
    casm_ostringstream_size (sinkContents [[104], [105, 106]]) =
      ([[104], [105, 106]] : List (List Nat)).flatten.length ∧
    ostringstream_to_str (sinkContents [[104], [105, 106]]) =
      ([[104], [105, 106]] : List (List Nat)).flatten :=
  c2_roundtrip [[104], [105, 106]] (by decide)

/-- Claim C3 counterexample: releasing the same capturing sink handle (7)
twice, or the same project context handle (3) twice, makes the wrapper
issue the native delete call twice — the second release is silently passed
through to the native library, not rejected or prevented. -/
theorem c3_double_release_counterexample :
    API_ostringstream_delete 7 (API_ostringstream_delete 7 []) =
      [NativeCall.ostringstreamDelete 7, NativeCall.ostringstreamDelete 7] ∧
    API_primclex_delete 3 (API_primclex_delete 3 []) =
      [NativeCall.primclexDelete 3, NativeCall.primclexDelete 3] := by
  decide

/-- Claim C3 (amended): the wrapper layer performs no double-release
detection — `ostringstream_delete` and `primclex_delete` forward every call
to the native library unconditionally, so a release of a handle already
released in the trace still issues one more native delete call for it. -/
theorem c3_release_forwarded (p q : Nat) (tr : List NativeCall)
    (h1 : NativeCall.ostringstreamDelete p ∈ tr)
    (h2 : NativeCall.primclexDelete q ∈ tr) :
    1 ≤ tr.count (NativeCall.ostringstreamDelete p) ∧
    (API_ostringstream_delete p tr).count (NativeCall.ostringstreamDelete p) =
      tr.count (NativeCall.ostringstreamDelete p) + 1 ∧
    1 ≤ tr.count (NativeCall.primclexDelete q) ∧
    (API_primclex_delete q tr).count (NativeCall.primclexDelete q) =
      tr.count (NativeCall.primclexDelete q) + 1 := by
  refine ⟨?_, ?_, ?_, ?_⟩
  · exact List.count_pos_iff.mpr h1
  · simp [API_ostringstream_delete]
  · exact List.count_pos_iff.mpr h2
  · simp [API_primclex_delete]

/-- Witness for C3 (amended) on a trace already holding both releases. -/
theorem c3_release_forwarded_witness :
    1 ≤ [NativeCall.ostringstreamDelete 7,
         NativeCall.primclexDelete 3].count (NativeCall.ostringstreamDelete 7) ∧
    (API_ostringstream_delete 7 [NativeCall.ostringstreamDelete 7,
         NativeCall.primclexDelete 3]).count (NativeCall.ostringstreamDelete 7) =
      [NativeCall.ostringstreamDelete 7,
         NativeCall.primclexDelete 3].count (NativeCall.ostringstreamDelete 7) + 1 ∧
    1 ≤ [NativeCall.ostringstreamDelete 7,
         NativeCall.primclexDelete 3].count (NativeCall.primclexDelete 3) ∧
    (API_primclex_delete 3 [NativeCall.ostringstreamDelete 7,
         NativeCall.primclexDelete 3]).count (NativeCall.primclexDelete 3) =
      [NativeCall.ostringstreamDelete 7,
         NativeCall.primclexDelete 3].count (NativeCall.primclexDelete 3) + 1 :=
  c3_release_forwarded 7 3
    [NativeCall.ostringstreamDelete 7, NativeCall.primclexDelete 3]
    (by decide) (by decide)

/-- Claim C4: `API.__call__` returns the native `casm_capi` status code
unchanged, and that code is always in `{0, ..., 8}` — the fixed status
enumeration. -/
theorem c4_status_code_domain
    (casm_capi : String → Option Nat → String → Nat → Nat → Nat → CommandOutcome)
    (args : String) (primclex : Option Nat) (root : String)
    (log debug_log err_log : Nat) :
    API_call casm_capi args primclex root log debug_log err_log =
      statusCode (casm_capi args primclex root log debug_log err_log) ∧
    API_call casm_capi args primclex root log debug_log err_log ≤ 8 := by
  refine ⟨rfl, ?_⟩
  unfold API_call
  cases casm_capi args primclex root log debug_log err_log <;> decide

/-- Claim C7: `primclex_refresh` with all five flags false leaves the
project context unchanged, so any (deterministic) dispatch issued after it,
with identical arguments and sink, produces an identical status code and
identical captured output as one issued before. -/
theorem c7_refresh_noop (disk : ProjectDisk) (s : PrimClexData)
    (dispatch : String → PrimClexData → SinkContent → Nat × SinkContent)
    (args : String) (sink : SinkContent) :
    API_primclex_refresh disk s false false false false false = s ∧
    dispatch args (API_primclex_refresh disk s false false false false false) sink =
      dispatch args s sink := by
  have h : API_primclex_refresh disk s false false false false false = s := rfl
  exact ⟨h, by rw [h]⟩

/-- Claim C8: a fresh capturing sink that has never been written to has
size 0 and an empty `ostringstream_to_str` readout. -/
theorem c8_fresh_sink_empty :
    casm_ostringstream_size casm_ostringstream_new = 0 ∧
    ostringstream_to_str casm_ostringstream_new = [] :=
  ⟨rfl, rfl⟩

/-- Claim C5 counterexample: in `env0` the executable is found but the
dependency listing has no `libcasm` entry.  `__API.__init__` raises the
re-raised `sh` grep error — not a `LibraryNotFoundError` carrying the
executable path and the listing — and prints the ad hoc diagnostic lines
(`api.py` has no `ExecutableNotFoundError` or `LibraryNotFoundError` at
all). -/
theorem c5_locator_counterexample :
    API_API_init env0 =
      (Except.error (PyExc.errorReturnCode "grep"),
       ["Error loading casm libraries", "Find 'casm': /usr/bin/casm",
        "Find 'libcasm':", lddNoMatch]) ∧
    (API_API_init env0).1 ≠
      Except.error (PyExc.libraryNotFoundError "/usr/bin/casm" lddNoMatch) ∧
    (API_API_init env0).2 ≠ [] := by
  refine ⟨by decide, by decide, by decide⟩

/-- Claim C5 (amended): whenever locating or loading the libraries fails
with an exception `e` and the platform's dependency listing is available,
`__API.__init__` prints the ad hoc diagnostics — the error banner, the
`find_executable` result and the raw dependency listing — and re-raises the
original exception `e`; no `ExecutableNotFoundError` or
`LibraryNotFoundError` is ever constructed. -/
theorem c5_load_failure_diagnostics (env : ApiEnv) (e : PyExc) (out : String)
    (h1 : tryLoadLibs env = Except.error e)
    (h2 : (if env.platform = "darwin" then env.otoolRes else env.lddRes) =
      Except.ok out) :
    API_API_init env =
      (Except.error e,
       ["Error loading casm libraries",
        "Find 'casm': " ++ pyShowOptStr env.findExecutable,
        "Find 'libcasm':", out]) := by
  unfold API_API_init
  rw [h1, h2]
  rfl

/-- Witness for C5 (amended) at the concrete environment `env0`. -/
theorem c5_load_failure_diagnostics_witness :
    API_API_init env0 =
      (Except.error (PyExc.errorReturnCode "grep"),
       ["Error loading casm libraries",
        "Find 'casm': " ++ pyShowOptStr env0.findExecutable,
        "Find 'libcasm':", lddNoMatch]) :=
  c5_load_failure_diagnostics env0 (PyExc.errorReturnCode "grep") lddNoMatch
    (by decide) (by decide)

/-- Claim C6: whenever the locator succeeds, the binding library's path is
the engine library's path with `libcasm` textually replaced by `libccasm`;
on darwin the engine path is the first token of the `libcasm` line of the
Mach-O (`otool -L`) listing with `@loader_path` resolved against the
executable's directory, and on other platforms it is the resolved-path
field (third token) of the `libcasm` line of the ELF (`ldd`) listing. -/
theorem c6_locator_paths (env : ApiEnv) (p q : String)
    (h : locate_libs env = Except.ok (p, q)) :
    q = pyReplaceStr p "libcasm" "libccasm" ∧
    (env.platform = "darwin" →
      ∃ out g tok cp,
        env.otoolRes = Except.ok out ∧
        pyGrep out "libcasm" = Except.ok g ∧
        (pySplit g).get? 0 = some tok ∧
        env.findExecutable = some cp ∧
        p = pyReplaceStr tok "@loader_path" (pyDirname cp)) ∧
    (¬ env.platform = "darwin" →
      ∃ out g,
        env.lddRes = Except.ok out ∧
        pyGrep out "libcasm" = Except.ok g ∧
        (pySplit g).get? 2 = some p) := by
  unfold locate_libs at h
  obtain ⟨p0, hl, hpq⟩ := exbind_ok h
  injection hpq with hpq
  have hp : p0 = p := congrArg Prod.fst hpq
  have hq : pyReplaceStr p0 "libcasm" "libccasm" = q := congrArg Prod.snd hpq
  subst hp
  subst hq
  refine ⟨rfl, ?_, ?_⟩
  · intro hd
    unfold locate_libcasm at hl
    rw [if_pos hd] at hl
    obtain ⟨out, ho, hl⟩ := exbind_ok hl
    obtain ⟨g, hg, hl⟩ := exbind_ok hl
    obtain ⟨tok, hi, hl⟩ := exbind_ok hl
    obtain ⟨cp, hf, hl⟩ := optbind_ok hl
    injection hl with hl
    exact ⟨out, g, tok, cp, ho, hg, (pyIndex_ok _ _ _).mp hi, hf, hl.symm⟩
  · intro hd
    unfold locate_libcasm at hl
    rw [if_neg hd] at hl
    obtain ⟨out, ho, hl⟩ := exbind_ok hl
    obtain ⟨g, hg, hl⟩ := exbind_ok hl
    exact ⟨out, g, ho, hg, (pyIndex_ok _ _ _).mp hl⟩

/-- Witness for C6 at the concrete environment `env1`, where `ldd` resolves
`/usr/lib/libcasm.so`. -/
theorem c6_locator_paths_witness :
    "/usr/lib/libccasm.so" = pyReplaceStr "/usr/lib/libcasm.so" "libcasm" "libccasm" ∧
    (env1.platform = "darwin" →
      ∃ out g tok cp,
        env1.otoolRes = Except.ok out ∧
        pyGrep out "libcasm" = Except.ok g ∧
        (pySplit g).get? 0 = some tok ∧
        env1.findExecutable = some cp ∧
        "/usr/lib/libcasm.so" = pyReplaceStr tok "@loader_path" (pyDirname cp)) ∧
    (¬ env1.platform = "darwin" →
      ∃ out g,
        env1.lddRes = Except.ok out ∧
        pyGrep out "libcasm" = Except.ok g ∧
        (pySplit g).get? 2 = some "/usr/lib/libcasm.so") :=
  c6_locator_paths env1 "/usr/lib/libcasm.so" "/usr/lib/libccasm.so" (by decide)

/-- Claim C9: `ASEIntermediary.__init__` succeeds exactly on the empty
mapping (giving empty forward and inverse maps); on any non-empty mapping
the dict comprehension's first iteration evaluates the undefined name
`value` and raises `NameError`. -/
theorem c9_init_nameerror (m : List (String × String)) :
    (m = [] → ASEIntermediary_init m =
      Except.ok { casm_to_ase_chemical_symbols := [],
                  ase_to_casm_chemical_symbols := [] }) ∧
    (m ≠ [] → ASEIntermediary_init m = Except.error (PyExc.nameError "value")) := by
  constructor
  · rintro rfl; rfl
  · intro hne
    cases m with
    | nil => exact absurd rfl hne
    | cons kv rest => rfl

/-- Witness for C9: the empty mapping constructs, a one-entry mapping
raises `NameError`. -/
theorem c9_init_nameerror_witness :
    ASEIntermediary_init [] =
      Except.ok { casm_to_ase_chemical_symbols := [],
                  ase_to_casm_chemical_symbols := [] } ∧
    ASEIntermediary_init [("Va", "V")] = Except.error (PyExc.nameError "value") :=
  ⟨(c9_init_nameerror []).1 rfl, (c9_init_nameerror [("Va", "V")]).2 (by decide)⟩

/-- Claim C10: for every ase structure, `make_casm_structure` stores the
atom types under the key `atom_types` and defines no key `atom_type`, while
`make_structure` reads the key `atom_type`; composing them therefore always
raises `KeyError` (with key `atom_type`) instead of round-tripping. -/
theorem c10_key_mismatch (ase_to_casm casm_to_ase : List (String × String))
    (validSymbol : String → Bool)
    (cartToFrac : List (List Rat) → List (List Rat) → List (List Rat))
    (getProp : CasmStructure → String → String → Option CVal)
    (a : AseAtoms) :
    pyDictGet (make_casm_structure ase_to_casm a) "atom_types" =
      Except.ok (CVal.strs (a.symbols.map (fun x => pyGetD ase_to_casm x))) ∧
    pyDictGet (make_casm_structure ase_to_casm a) "atom_type" =
      Except.error (PyExc.keyError "atom_type") ∧
    make_structure casm_to_ase validSymbol cartToFrac getProp
      (make_casm_structure ase_to_casm a) =
      Except.error (PyExc.keyError "atom_type") :=
  ⟨rfl, rfl, rfl⟩

end CasmPython
